import Mathlib

/-!
Shallow embedding of `src/packages/react/src/component.tsx` (uploadthing React
components): the label-formatter pipeline (`generatePermittedFileTypes`,
`capitalizeStart`, `INTERNAL_doFormatting`, `allowedContentTextLabelGenerator`),
the upload-callback handlers of the `UploadButton` and `UploadDropzone`
widgets, and the Dropzone upload-trigger label.

A `RouteConfig` (TS `ExpandedRouteConfig`) is a key-ordered mapping from
file-type keys to limits; we embed it as an association list preserving
insertion order, which is the order `Object.keys` / `Object.values` iterate.
JS `number` fields that the code only compares with `> 1` and interpolates are
embedded as `Nat` (spec: `maxFileCount` is an integer count).

`INTERNAL_doFormatting` is embedded with return type `Option String`: on a
present config with zero keys the TS code destructures
`config[allowedTypes[0]]!` where `allowedTypes[0]` is `undefined`, which
throws; the total embedding returns `none` on that path.
-/

/-- Limits value of one RouteConfig entry: `{maxFileSize: string, maxFileCount?: number}`. -/
structure FileLimits where
  maxFileSize : String
  maxFileCount : Option Nat
deriving DecidableEq, Repr

/-- A RouteConfig as an insertion-ordered association list with unique keys
(uniqueness is not needed by the formatter and is not assumed). -/
abbrev RouteConfig := List (String × FileLimits)

/-- Embedding of JS `String.prototype.split` with a one-character separator,
on the character list of the string: `"".split(sep)` is `[""]`, and each
occurrence of `sep` starts a new fragment. -/
def splitChar (sep : Char) : List Char → List (List Char)
  | [] => [[]]
  | c :: cs =>
    if c = sep then [] :: splitChar sep cs
    else (c :: (splitChar sep cs).headD []) :: (splitChar sep cs).tail

/-- Embedding of JS `String.prototype.toUpperCase` (ASCII range, the only
range the repository's keys use): upper-case every character. -/
def upperCase (s : String) : String :=
  String.mk (s.data.map Char.toUpper)

/-- The per-key display token of `INTERNAL_doFormatting` (component.tsx lines
43-46): if the key includes `"/"`, the fragment at index 1 of
`key.split("/")` upper-cased and suffixed `" file"`; else `"file"` for the
literal key `"blob"`; else the key itself. -/
def formatToken (f : String) : String :=
  if f.data.contains '/' then
    upperCase (String.mk ((splitChar '/' f.data).getD 1 [])) ++ " file"
  else if f = "blob" then "file"
  else f

/-- Action of `capitalizeStart` on the character list: upper-case the head
character only. -/
def capList : List Char → List Char
  | [] => []
  | c :: cs => Char.toUpper c :: cs

/-- Embedding of `capitalizeStart` (component.tsx lines 34-36):
`str.charAt(0).toUpperCase() + str.slice(1)`; on the empty string both parts
are empty. -/
def capitalizeStart (str : String) : String :=
  String.mk (capList str.data)

/-- Embedding of `INTERNAL_doFormatting` (component.tsx lines 38-66).
`none` models the TS exception thrown when `config` is present but empty:
`key = allowedTypes[0]` is `undefined` and destructuring `config[key]!`
throws before any string is produced. -/
def INTERNAL_doFormatting (config : Option RouteConfig) : Option String :=
  match config with
  | none => some ""
  | some cfg =>
    let allowedTypes := cfg.map Prod.fst
    let formattedTypes := allowedTypes.map formatToken
    if formattedTypes.length > 1 then
      -- `const lastType = formattedTypes.pop()` then
      -- `` `${formattedTypes.join("s, ")} and ${lastType}s` ``
      match formattedTypes.getLast? with
      | some lastType =>
        some (String.intercalate "s, " formattedTypes.dropLast ++ " and " ++ lastType ++ "s")
      | none => none
    else
      -- `const key = allowedTypes[0]; const formattedKey = formattedTypes[0];`
      match allowedTypes.head?, formattedTypes.head? with
      | some key, some formattedKey =>
        match cfg.lookup key with
        | some lim =>
          -- `if (maxFileCount && maxFileCount > 1)`
          match lim.maxFileCount with
          | some c =>
            if c > 1 then
              some (formattedKey ++ "s up to " ++ lim.maxFileSize ++ ", max " ++ toString c)
            else
              some (formattedKey ++ " (" ++ lim.maxFileSize ++ ")")
          | none => some (formattedKey ++ " (" ++ lim.maxFileSize ++ ")")
        | none => none
      | _, _ => none

/-- Embedding of `allowedContentTextLabelGenerator` (component.tsx lines
68-72): capitalize the start of the formatted label. -/
def allowedContentTextLabelGenerator (config : Option RouteConfig) : Option String :=
  (INTERNAL_doFormatting config).map capitalizeStart

/-- Result of `generatePermittedFileTypes`. -/
structure PermittedFileTypes where
  fileTypes : List String
  multiple : Bool
deriving DecidableEq, Repr

/-- Embedding of `generatePermittedFileTypes` (component.tsx lines 24-32):
`fileTypes` is `Object.keys(config)` (or `[]` when absent); `multiple` is
`Object.values(config).map((v) => v.maxFileCount).some((v) => v && v > 1)`,
where an absent (`undefined`) or zero count is falsy. -/
def generatePermittedFileTypes (config : Option RouteConfig) : PermittedFileTypes :=
  let fileTypes := match config with
    | some c => c.map Prod.fst
    | none => []
  let maxFileCount := match config with
    | some c => c.map (fun (v : String × FileLimits) => v.2.maxFileCount)
    | none => []
  { fileTypes := fileTypes
    multiple := maxFileCount.any (fun v => match v with
      | some c => decide (c > 1)
      | none => false) }

/-! Widget-local state and upload-callback handlers.

Each widget holds local React state (`useState`) and passes three callbacks
to the external upload hook (component.tsx lines 178-194 for the Button,
294-308 for the Dropzone).  We embed each callback handler as a pure function
from the widget's local state to the state after the handler ran, paired with
whether the caller-supplied callback of the same name was invoked.  The
handlers are:

* `onClientUploadComplete`: Button clears the file input's value and resets
  progress to 0; Dropzone clears the selected-files list and resets progress
  to 0; both forward the result to the caller's callback.
* `onUploadProgress`: both overwrite the local progress with the reported
  value and forward it.
* `onUploadError`: both pass the caller's `onUploadError` through verbatim
  (`onUploadError: $props.onUploadError`), so the caller's callback is
  invoked and no local state is touched.
-/

/-- Local state of the `UploadButton` widget: the progress percentage and the
native file input's `value`. -/
structure ButtonState where
  uploadProgress : Nat
  fileInputValue : String
deriving DecidableEq, Repr

/-- Local state of the `UploadDropzone` widget: the progress percentage and
the selected-files list (files identified by name). -/
structure DropzoneState where
  uploadProgress : Nat
  files : List String
deriving DecidableEq, Repr

/-- Outcome of running one upload callback handler: the widget state after
the handler, and whether the caller-supplied callback was invoked. -/
structure CallbackResult (σ : Type) where
  state : σ
  callerCallbackInvoked : Bool
deriving DecidableEq, Repr

/-- Button `onClientUploadComplete` (component.tsx lines 181-187): clear the
file input value, invoke the caller's completion callback, reset progress. -/
def UploadButton.onClientUploadComplete (s : ButtonState) : CallbackResult ButtonState :=
  { state := { s with fileInputValue := "", uploadProgress := 0 }
    callerCallbackInvoked := true }

/-- Button `onUploadProgress` (component.tsx lines 188-191): store the
reported progress and forward it to the caller's callback. -/
def UploadButton.onUploadProgress (s : ButtonState) (p : Nat) : CallbackResult ButtonState :=
  { state := { s with uploadProgress := p }
    callerCallbackInvoked := true }

/-- Button `onUploadError` (component.tsx line 192): the caller's
`onUploadError` is passed through verbatim, so it is invoked and no local
widget state is modified. -/
def UploadButton.onUploadError (s : ButtonState) : CallbackResult ButtonState :=
  { state := s
    callerCallbackInvoked := true }

/-- Dropzone `onClientUploadComplete` (component.tsx lines 297-301): clear
the selected-files list, invoke the caller's completion callback, reset
progress. -/
def UploadDropzone.onClientUploadComplete (s : DropzoneState) : CallbackResult DropzoneState :=
  { state := { s with files := [], uploadProgress := 0 }
    callerCallbackInvoked := true }

/-- Dropzone `onUploadProgress` (component.tsx lines 302-305): store the
reported progress and forward it to the caller's callback. -/
def UploadDropzone.onUploadProgress (s : DropzoneState) (p : Nat) : CallbackResult DropzoneState :=
  { state := { s with uploadProgress := p }
    callerCallbackInvoked := true }

/-- Dropzone `onUploadError` (component.tsx line 306): the caller's
`onUploadError` is passed through verbatim, so it is invoked and no local
widget state is modified. -/
def UploadDropzone.onUploadError (s : DropzoneState) : CallbackResult DropzoneState :=
  { state := s
    callerCallbackInvoked := true }

/-- What the Dropzone's upload-trigger button area shows. -/
inductive TriggerView where
  | hidden
  | spinner
  | label (text : String)
deriving DecidableEq, Repr

/-- The upload-trigger text of the Dropzone (component.tsx line 384):
`` `Upload ${files.length} file${files.length === 1 ? "" : "s"}` ``. -/
def dropzoneUploadTriggerText (files : List String) : String :=
  "Upload " ++ toString files.length ++ " file" ++ (if files.length = 1 then "" else "s")

/-- The Dropzone's upload-trigger area (component.tsx lines 362-389): the
button is rendered only when `files.length > 0`; its content is a spinner
while uploading and the upload-trigger text otherwise. -/
def dropzoneTriggerView (files : List String) (isUploading : Bool) : TriggerView :=
  if files.length > 0 then
    if isUploading then TriggerView.spinner
    else TriggerView.label (dropzoneUploadTriggerText files)
  else TriggerView.hidden

/-! Supporting lemmas about the string helpers. -/

theorem data_mk (l : List Char) : (String.mk l).data = l := rfl

theorem mk_append (l : List Char) (b : String) :
    String.mk l ++ b = String.mk (l ++ b.data) := by
  cases b
  rfl

theorem data_capitalizeStart (s : String) :
    (capitalizeStart s).data = capList s.data := rfl

theorem capList_append (l m : List Char) (h : l ≠ []) :
    capList (l ++ m) = capList l ++ m := by
  cases l with
  | nil => exact absurd rfl h
  | cons c cs => rfl

theorem capitalizeStart_append (a b : String) (h : a.data ≠ []) :
    capitalizeStart (a ++ b) = capitalizeStart a ++ b := by
  unfold capitalizeStart
  rw [String.data_append, capList_append a.data b.data h, ← mk_append]

theorem capitalizeStart_fixed (b : String)
    (hb : ∀ c, b.data.head? = some c → Char.toUpper c = c) :
    capitalizeStart b = b := by
  apply String.ext
  rw [data_capitalizeStart]
  cases hd : b.data with
  | nil => simp [capList]
  | cons c cs =>
    have hc := hb c (by rw [hd]; rfl)
    simp [capList, hc]

theorem capitalizeStart_append_of_fixed (a b : String)
    (hb : ∀ c, b.data.head? = some c → Char.toUpper c = c) :
    capitalizeStart (a ++ b) = capitalizeStart a ++ b := by
  cases ha : a.data with
  | nil =>
    have ha0 : a = "" := String.ext ha
    subst ha0
    rw [String.empty_append]
    have h0 : capitalizeStart "" = "" := rfl
    rw [h0, String.empty_append]
    exact capitalizeStart_fixed b hb
  | cons c cs =>
    exact capitalizeStart_append a b (by rw [ha]; exact List.cons_ne_nil c cs)

theorem splitChar_no_sep (sep : Char) (l : List Char) (h : sep ∉ l) :
    splitChar sep l = [l] := by
  induction l with
  | nil => rfl
  | cons c cs ih =>
    simp only [List.mem_cons, not_or] at h
    have hc : ¬ c = sep := fun hcs => h.1 hcs.symm
    simp [splitChar, hc, ih h.2]

theorem splitChar_append_sep (sep : Char) (xs ys : List Char) (h : sep ∉ xs) :
    splitChar sep (xs ++ sep :: ys) = xs :: splitChar sep ys := by
  induction xs with
  | nil => simp [splitChar]
  | cons c cs ih =>
    simp only [List.mem_cons, not_or] at h
    have hc : ¬ c = sep := fun hcs => h.1 hcs.symm
    simp [splitChar, hc, ih h.2]

theorem formatToken_mime (cat sub : String)
    (h1 : '/' ∉ cat.data) (h2 : '/' ∉ sub.data) :
    formatToken (cat ++ "/" ++ sub) = upperCase sub ++ " file" := by
  have hdata : (cat ++ "/" ++ sub).data = cat.data ++ '/' :: sub.data := by
    simp [String.data_append]
  unfold formatToken
  rw [hdata]
  have hcon : (cat.data ++ '/' :: sub.data).contains '/' = true := by simp
  rw [hcon, if_pos rfl, splitChar_append_sep '/' cat.data sub.data h1,
    splitChar_no_sep '/' sub.data h2]
  rfl

theorem formatToken_ne_empty (k : String) (h : k ≠ "") :
    (formatToken k).data ≠ [] := by
  unfold formatToken
  split
  · rw [String.data_append]
    simp
  · split
    · simp
    · intro hd
      exact h (String.ext hd)

/-! Supporting lemmas evaluating `INTERNAL_doFormatting` on the branch
shapes. -/

theorem doFormatting_single (k : String) (lim : FileLimits) :
    INTERNAL_doFormatting (some [(k, lim)]) =
      match lim.maxFileCount with
      | some c =>
        if c > 1 then
          some (formatToken k ++ "s up to " ++ lim.maxFileSize ++ ", max " ++ toString c)
        else
          some (formatToken k ++ " (" ++ lim.maxFileSize ++ ")")
      | none => some (formatToken k ++ " (" ++ lim.maxFileSize ++ ")") := by
  simp [INTERNAL_doFormatting, List.lookup]

theorem doFormatting_multi (cfg : RouteConfig) (init : List String) (lastT : String)
    (h : (cfg.map Prod.fst).map formatToken = init ++ [lastT])
    (h2 : 1 < cfg.length) :
    INTERNAL_doFormatting (some cfg) =
      some (String.intercalate "s, " init ++ " and " ++ lastT ++ "s") := by
  have hlen : 1 < ((cfg.map Prod.fst).map formatToken).length := by
    simpa using h2
  simp only [INTERNAL_doFormatting, h]
  rw [h] at hlen
  rw [if_pos hlen, List.getLast?_concat, List.dropLast_concat]

/-! Claim theorems. -/

/-- C1: evaluation of the label generator at the claim's two-entry scenario
`{"image/png": _, "video/mp4": _}`.  The claim (and the code's own comment)
expect every token before `" and "` to carry a trailing `"s"`, i.e.
`"PNG files and MP4 files"`; the code joins the leading tokens with the
separator `"s, "`, which inserts no `"s"` after the token immediately before
`" and "`, so it produces `"PNG file and MP4 files"` instead. -/
theorem multiTypeLabel_twoEntries_eval :
    allowedContentTextLabelGenerator
        (some [("image/png", FileLimits.mk "4MB" none), ("video/mp4", FileLimits.mk "4MB" none)])
      = some "PNG file and MP4 files" ∧
    allowedContentTextLabelGenerator
        (some [("image/png", FileLimits.mk "4MB" none), ("video/mp4", FileLimits.mk "4MB" none)])
      ≠ some "PNG files and MP4 files" := by
  decide

/-- C2: for a config with more than one key, the label generator joins all
display tokens except the last with the separator `"s, "`, appends `" and "`,
the last token and `"s"`, and upper-cases only the first character of the
result. -/
theorem multiTypeLabel_join (cfg : RouteConfig) (init : List String) (lastT : String)
    (h : (cfg.map Prod.fst).map formatToken = init ++ [lastT])
    (h2 : 1 < cfg.length) :
    allowedContentTextLabelGenerator (some cfg) =
      some (capitalizeStart (String.intercalate "s, " init ++ " and " ++ lastT ++ "s")) := by
  simp [allowedContentTextLabelGenerator, doFormatting_multi cfg init lastT h h2]

theorem multiTypeLabel_join_witness :
    ((([("image/png", FileLimits.mk "4MB" none), ("video/mp4", FileLimits.mk "4MB" none)] :
        RouteConfig).map Prod.fst).map formatToken = ["PNG file"] ++ ["MP4 file"]) ∧
    1 < ([("image/png", FileLimits.mk "4MB" none), ("video/mp4", FileLimits.mk "4MB" none)] :
        RouteConfig).length ∧
    allowedContentTextLabelGenerator
        (some [("image/png", FileLimits.mk "4MB" none), ("video/mp4", FileLimits.mk "4MB" none)]) =
      some (capitalizeStart (String.intercalate "s, " ["PNG file"] ++ " and " ++ "MP4 file" ++ "s")) :=
  ⟨by decide, by decide,
    multiTypeLabel_join _ ["PNG file"] "MP4 file" (by decide) (by decide)⟩

/-- C3: for a single-key config whose `maxFileCount` is absent or at most 1,
the label is the capitalization of the key's token followed by `" ("`, the
entry's `maxFileSize`, and `")"`; in particular
`{"image/png": {maxFileSize: "4MB"}}` yields `"PNG file (4MB)"`. -/
theorem singleTypeLabel_default (k : String) (lim : FileLimits)
    (h : lim.maxFileCount = none ∨ ∃ c, lim.maxFileCount = some c ∧ c ≤ 1) :
    (allowedContentTextLabelGenerator (some [(k, lim)]) =
      some (capitalizeStart (formatToken k) ++ " (" ++ lim.maxFileSize ++ ")")) ∧
    allowedContentTextLabelGenerator (some [("image/png", FileLimits.mk "4MB" none)]) =
      some "PNG file (4MB)" := by
  refine ⟨?_, by decide⟩
  have hcap : capitalizeStart (formatToken k ++ " (" ++ lim.maxFileSize ++ ")")
      = capitalizeStart (formatToken k) ++ " (" ++ lim.maxFileSize ++ ")" := by
    apply String.ext
    have d1 : (" (" : String).data = [' ', '('] := rfl
    have d2 : (")" : String).data = [')'] := rfl
    simp only [data_capitalizeStart, String.data_append, d1, d2, List.append_assoc,
      List.cons_append, List.nil_append]
    by_cases hX : (formatToken k).data = []
    · rw [hX]
      simp [capList, show Char.toUpper ' ' = ' ' from by decide]
    · rw [capList_append _ _ hX]
  rcases h with hnone | ⟨c, hc, hle⟩
  · simp [allowedContentTextLabelGenerator, doFormatting_single, hnone, hcap]
  · have hng : ¬ c > 1 := by omega
    simp [allowedContentTextLabelGenerator, doFormatting_single, hc, hng, hcap]

theorem singleTypeLabel_default_witness :
    ((FileLimits.mk "4MB" none).maxFileCount = none ∨
      ∃ c, (FileLimits.mk "4MB" none).maxFileCount = some c ∧ c ≤ 1) ∧
    ((allowedContentTextLabelGenerator (some [("image/png", FileLimits.mk "4MB" none)]) =
        some (capitalizeStart (formatToken "image/png") ++ " (" ++
          (FileLimits.mk "4MB" none).maxFileSize ++ ")")) ∧
      allowedContentTextLabelGenerator (some [("image/png", FileLimits.mk "4MB" none)]) =
        some "PNG file (4MB)") :=
  ⟨Or.inl rfl, singleTypeLabel_default "image/png" (FileLimits.mk "4MB" none) (Or.inl rfl)⟩

/-- C4: for a single-key config whose `maxFileCount` is present and greater
than 1, the label is the capitalization of the key's token followed by
`"s up to "`, the entry's `maxFileSize`, `", max "`, and the count; in
particular `{"image/png": {maxFileSize: "4MB", maxFileCount: 5}}` yields
`"PNG files up to 4MB, max 5"`.  The hypothesis `k ≠ ""` encodes the data
model's key well-formedness (keys are MIME-category strings, never empty). -/
theorem singleTypeLabel_multiCount (k sz : String) (c : Nat)
    (hk : k ≠ "") (hc : 1 < c) :
    (allowedContentTextLabelGenerator (some [(k, FileLimits.mk sz (some c))]) =
      some (capitalizeStart (formatToken k) ++ "s up to " ++ sz ++ ", max " ++ toString c)) ∧
    allowedContentTextLabelGenerator (some [("image/png", FileLimits.mk "4MB" (some 5))]) =
      some "PNG files up to 4MB, max 5" := by
  refine ⟨?_, by decide⟩
  have hcap : capitalizeStart (formatToken k ++ "s up to " ++ sz ++ ", max " ++ toString c)
      = capitalizeStart (formatToken k) ++ "s up to " ++ sz ++ ", max " ++ toString c := by
    apply String.ext
    simp only [data_capitalizeStart, String.data_append, List.append_assoc]
    rw [capList_append _ _ (formatToken_ne_empty k hk)]
  have hgt : c > 1 := hc
  simp [allowedContentTextLabelGenerator, doFormatting_single, hgt, hcap]

theorem singleTypeLabel_multiCount_witness :
    ("image/png" : String) ≠ "" ∧ 1 < 5 ∧
    ((allowedContentTextLabelGenerator (some [("image/png", FileLimits.mk "4MB" (some 5))]) =
        some (capitalizeStart (formatToken "image/png") ++ "s up to " ++ "4MB" ++
          ", max " ++ toString 5)) ∧
      allowedContentTextLabelGenerator (some [("image/png", FileLimits.mk "4MB" (some 5))]) =
        some "PNG files up to 4MB, max 5") :=
  ⟨by decide, by decide,
    singleTypeLabel_multiCount "image/png" "4MB" 5 (by decide) (by decide)⟩

/-- C5: the singular display token of a key is: the subtype upper-cased
followed by `" file"` when the key has the form `category/subtype`; `"file"`
for the literal key `"blob"`; the key unchanged otherwise.  In particular
`{"blob": {maxFileSize: "10MB"}}` formats to `"File (10MB)"`. -/
theorem formatToken_spec (cat sub k : String)
    (h1 : '/' ∉ cat.data) (h2 : '/' ∉ sub.data) (h3 : '/' ∉ k.data) :
    formatToken (cat ++ "/" ++ sub) = upperCase sub ++ " file" ∧
    (k = "blob" → formatToken k = "file") ∧
    (k ≠ "blob" → formatToken k = k) ∧
    allowedContentTextLabelGenerator (some [("blob", FileLimits.mk "10MB" none)]) =
      some "File (10MB)" := by
  have hcon : k.data.contains '/' = false := by simpa using h3
  refine ⟨formatToken_mime cat sub h1 h2, ?_, ?_, by decide⟩
  · intro hb
    subst hb
    decide
  · intro hb
    unfold formatToken
    rw [hcon]
    simp [hb]

theorem formatToken_spec_witness :
    ('/' ∉ ("image" : String).data) ∧ ('/' ∉ ("png" : String).data) ∧
    ('/' ∉ ("audio" : String).data) ∧
    (formatToken ("image" ++ "/" ++ "png") = upperCase "png" ++ " file" ∧
      (("audio" : String) = "blob" → formatToken "audio" = "file") ∧
      (("audio" : String) ≠ "blob" → formatToken "audio" = "audio") ∧
      allowedContentTextLabelGenerator (some [("blob", FileLimits.mk "10MB" none)]) =
        some "File (10MB)") :=
  ⟨by decide, by decide, by decide,
    formatToken_spec "image" "png" "audio" (by decide) (by decide) (by decide)⟩

/-- C6: `generatePermittedFileTypes` derives `multiple` true exactly when
some entry's `maxFileCount` is present, truthy (non-zero) and greater than 1
— in particular false for an absent or empty config — and derives
`fileTypes` as the ordered key sequence (empty when the config is absent). -/
theorem generatePermittedFileTypes_spec (config : Option RouteConfig) :
    ((generatePermittedFileTypes config).multiple = true ↔
      ∃ kv ∈ config.getD [], ∃ c, kv.2.maxFileCount = some c ∧ c ≠ 0 ∧ 1 < c) ∧
    (generatePermittedFileTypes config).fileTypes = (config.getD []).map Prod.fst := by
  cases config with
  | none => simp [generatePermittedFileTypes]
  | some cfg =>
    refine ⟨?_, rfl⟩
    simp only [generatePermittedFileTypes, Option.getD_some]
    rw [List.any_eq_true]
    constructor
    · rintro ⟨o, ho, hp⟩
      obtain ⟨kv, hkv, rfl⟩ := List.mem_map.1 ho
      cases hmc : kv.2.maxFileCount with
      | none =>
        rw [hmc] at hp
        simp at hp
      | some c =>
        rw [hmc] at hp
        simp at hp
        exact ⟨kv, hkv, c, hmc, by omega, hp⟩
    · rintro ⟨kv, hkv, c, hmc, hc0, hc1⟩
      exact ⟨some c, List.mem_map.2 ⟨kv, hkv, by rw [hmc]⟩, by simp [hc1]⟩

/-- C7: for a present RouteConfig with zero keys the formatter does not take
the multi-token branch; it reaches the single-key path, where the first key
and its limits object do not exist, so the total embedding returns no string
(`none`), as does the label generator. -/
theorem emptyConfig_formatter_error :
    INTERNAL_doFormatting (some []) = none ∧
    allowedContentTextLabelGenerator (some []) = none :=
  ⟨rfl, rfl⟩

/-- C8 is refuted at a concrete state: with the Button at progress 50 and
the Dropzone at progress 50, firing the error callback leaves both local
progress values at 50; neither is reset to the initial value 0. -/
theorem onUploadError_progress_counterexample :
    (UploadButton.onUploadError ⟨50, "a.png"⟩).callerCallbackInvoked = true ∧
    (UploadButton.onUploadError ⟨50, "a.png"⟩).state.uploadProgress = 50 ∧
    ¬ (UploadButton.onUploadError ⟨50, "a.png"⟩).state.uploadProgress = 0 ∧
    (UploadDropzone.onUploadError ⟨50, ["a.png"]⟩).state.uploadProgress = 50 ∧
    ¬ (UploadDropzone.onUploadError ⟨50, ["a.png"]⟩).state.uploadProgress = 0 := by
  decide

/-- C8 (amended): when the external client's error callback fires, both the
Button and the Dropzone invoke the caller-supplied error callback, and the
widget's local state — in particular the local progress — is left unchanged;
it is not reset to 0 (progress is reset only by the completion callback). -/
theorem onUploadError_forwards_and_keeps_state (s : ButtonState) (t : DropzoneState) :
    UploadButton.onUploadError s = ⟨s, true⟩ ∧
    UploadDropzone.onUploadError t = ⟨t, true⟩ ∧
    (UploadButton.onUploadError s).state.uploadProgress = s.uploadProgress ∧
    (UploadDropzone.onUploadError t).state.uploadProgress = t.uploadProgress :=
  ⟨rfl, rfl, rfl, rfl⟩

/-- C9: with a non-empty selected-files list of length N and no upload in
flight, the Dropzone's upload trigger shows `"Upload N file"` when N = 1 and
`"Upload N files"` otherwise. -/
theorem dropzoneTrigger_text (files : List String) (h : files ≠ []) :
    dropzoneTriggerView files false =
      TriggerView.label ("Upload " ++ toString files.length ++
        (if files.length = 1 then " file" else " files")) := by
  have hl : files.length > 0 := List.length_pos.2 h
  unfold dropzoneTriggerView dropzoneUploadTriggerText
  rw [if_pos hl]
  simp only [Bool.false_eq_true, if_false]
  congr 1
  apply String.ext
  have d1 : (" file" : String).data = [' ', 'f', 'i', 'l', 'e'] := rfl
  have d2 : ("s" : String).data = ['s'] := rfl
  have d3 : (" files" : String).data = [' ', 'f', 'i', 'l', 'e', 's'] := rfl
  have d4 : ("" : String).data = [] := rfl
  by_cases h1 : files.length = 1
  · simp [h1, String.data_append, d1, d2, d3, d4, List.append_assoc]
  · simp [h1, String.data_append, d1, d2, d3, d4, List.append_assoc]

theorem dropzoneTrigger_text_witness :
    (["a.png"] : List String) ≠ [] ∧
    dropzoneTriggerView ["a.png"] false =
      TriggerView.label ("Upload " ++ toString (["a.png"] : List String).length ++
        (if (["a.png"] : List String).length = 1 then " file" else " files")) :=
  ⟨by decide, dropzoneTrigger_text ["a.png"] (by decide)⟩

/-- C10: when the RouteConfig input is absent the label generator returns
the empty string, and the first-character capitalization step is total on
the empty string and leaves it empty. -/
theorem absentConfig_empty_label :
    allowedContentTextLabelGenerator none = some "" ∧ capitalizeStart "" = "" :=
  ⟨rfl, rfl⟩

